import Mathlib

/-!
Shallow embedding of the kitties pallet (src/pallets/kitties/src/lib.rs).

Bytes are modelled as natural numbers (a byte is a value below 256; the
bitwise operators of Rust u8 become Nat.land, Nat.lor and Nat.xor, with
the u8 complement of a byte s written 255 ^^^ s).  The two storage items,
the double map Kitties and the counter NextKittyId, become the two fields
of a State record; account ids are natural numbers.  Dispatchable calls
return Except: on an error the framework commits no storage change, which
the dispatch wrappers below make explicit by returning the pre-call state.
The entropy source random_value is an external collaborator, so the 16
bytes it returns enter create and breed as an explicit parameter.
-/

/-- Gender of a kitty, mirroring enum KittyGender. -/
inductive KittyGender where
  | Male
  | Female
deriving DecidableEq

/-- A kitty is a 16-byte genome, mirroring struct Kitty(pub [u8; 16]). -/
structure Kitty where
  dna : Fin 16 → Nat

/-- Derived gender, mirroring Kitty::gender: Male when byte 0 is even. -/
def Kitty.gender (k : Kitty) : KittyGender :=
  if k.dna 0 % 2 = 0 then KittyGender.Male else KittyGender.Female

/-- Errors of the pallet, mirroring decl_error. -/
inductive Error where
  | KittiesIdOverflow
  | InvalidKittyId
  | SameGender
deriving DecidableEq

/-- Events of the pallet, mirroring decl_event. -/
inductive Event where
  | KittyCreated (owner : Nat) (kitty_id : Nat) (kitty : Kitty)
  | KittyBred (owner : Nat) (kitty_id : Nat) (kitty : Kitty)

/-- Storage of the pallet: the Kitties double map and NextKittyId. -/
structure State where
  kitties : Nat → Nat → Option Kitty
  nextKittyId : Nat

/-- Genesis storage: empty map, counter 0. -/
def initState : State :=
  { kitties := fun _ _ => none, nextKittyId := 0 }

/-- Largest value of the u32 counter. -/
def u32MAX : Nat := 4294967295

/-- Byte-wise genome combination, mirroring fn combine_dna:
    (!selector & dna1) | (selector & dna2). -/
def combine_dna (dna1 dna2 selector : Nat) : Nat :=
  ((255 ^^^ selector) &&& dna1) ||| (selector &&& dna2)

/-- Insertion into the Kitties double map at key (owner, kitty_id). -/
def insertKitty (m : Nat → Nat → Option Kitty) (owner kitty_id : Nat)
    (k : Kitty) : Nat → Nat → Option Kitty :=
  fun o i => if o = owner ∧ i = kitty_id then some k else m o i

/-- Mirrors fn get_next_kitty_id: try_mutate reads the counter, fails with
    KittiesIdOverflow when the checked increment overflows (rolling the
    storage back, hence the unchanged state in the error branch), and
    otherwise stores counter + 1 and returns the old counter. -/
def get_next_kitty_id (s : State) : Except Error Nat × State :=
  if u32MAX ≤ s.nextKittyId then
    (Except.error Error.KittiesIdOverflow, s)
  else
    (Except.ok s.nextKittyId, { s with nextKittyId := s.nextKittyId + 1 })

/-- Mirrors fn create: allocate an id, take the 16 entropy bytes verbatim
    as the genome, insert at (sender, id), emit KittyCreated. -/
def create (sender : Nat) (dna : Fin 16 → Nat) (s : State) :
    Except Error (State × Event) :=
  match get_next_kitty_id s with
  | (Except.error e, _) => Except.error e
  | (Except.ok kitty_id, s1) =>
    let kitty : Kitty := ⟨dna⟩
    Except.ok
      ({ s1 with kitties := insertKitty s1.kitties sender kitty_id kitty },
       Event.KittyCreated sender kitty_id kitty)

/-- Child genome built by the loop in fn breed:
    new_dna[i] = combine_dna(kitty1_dna[i], kitty2_dna[i], selector[i]). -/
def bred_kitty (kitty1 kitty2 : Kitty) (selector : Fin 16 → Nat) : Kitty :=
  ⟨fun i => combine_dna (kitty1.dna i) (kitty2.dna i) (selector i)⟩

/-- Mirrors fn breed: look up both parents under the sender (InvalidKittyId
    when absent), reject equal genders (SameGender), allocate an id, then
    combine the parent genomes under the entropy selector, insert the
    child at (sender, id) and emit KittyBred. -/
def breed (sender kitty_id_1 kitty_id_2 : Nat) (selector : Fin 16 → Nat)
    (s : State) : Except Error (State × Event) :=
  match s.kitties sender kitty_id_1 with
  | none => Except.error Error.InvalidKittyId
  | some kitty1 =>
    match s.kitties sender kitty_id_2 with
    | none => Except.error Error.InvalidKittyId
    | some kitty2 =>
      if kitty1.gender = kitty2.gender then Except.error Error.SameGender
      else
        match get_next_kitty_id s with
        | (Except.error e, _) => Except.error e
        | (Except.ok kitty_id, s1) =>
          let new_kitty := bred_kitty kitty1 kitty2 selector
          Except.ok
            ({ s1 with
                 kitties := insertKitty s1.kitties sender kitty_id new_kitty },
             Event.KittyBred sender kitty_id new_kitty)

/-- Storage state after a dispatched create call: the new state on success,
    the untouched pre-call state on error (transactional dispatch). -/
def dispatch_create (sender : Nat) (dna : Fin 16 → Nat) (s : State) : State :=
  match create sender dna s with
  | Except.ok (s', _) => s'
  | Except.error _ => s

/-- Storage state after a dispatched breed call: the new state on success,
    the untouched pre-call state on error (transactional dispatch). -/
def dispatch_breed (sender kitty_id_1 kitty_id_2 : Nat)
    (selector : Fin 16 → Nat) (s : State) : State :=
  match breed sender kitty_id_1 kitty_id_2 selector s with
  | Except.ok (s', _) => s'
  | Except.error _ => s

/-- One dispatchable call with its entropy input. -/
inductive Op where
  | createOp (sender : Nat) (dna : Fin 16 → Nat)
  | breedOp (sender kitty_id_1 kitty_id_2 : Nat) (selector : Fin 16 → Nat)

/-- Run one call on the state. -/
def applyOp (s : State) : Op → Except Error (State × Event)
  | Op.createOp sender dna => create sender dna s
  | Op.breedOp sender k1 k2 sel => breed sender k1 k2 sel s

/-- The id carried by an emitted event. -/
def eventId : Event → Nat
  | Event.KittyCreated _ kitty_id _ => kitty_id
  | Event.KittyBred _ kitty_id _ => kitty_id

/-- Run a sequence of calls, collecting the ids allocated by the
    successful ones in order; failed calls leave the state unchanged. -/
def runTrace : State → List Op → State × List Nat
  | s, [] => (s, [])
  | s, op :: ops =>
    match applyOp s op with
    | Except.ok (s', ev) =>
      ((runTrace s' ops).1, eventId ev :: (runTrace s' ops).2)
    | Except.error _ => runTrace s ops

/-! Concrete states used by the witnesses. -/

/-- A genome of all-zero bytes: byte 0 even, hence Male. -/
def kittyMale : Kitty := ⟨fun _ => 0⟩

/-- A genome of all-one bytes: byte 0 odd, hence Female. -/
def kittyFemale : Kitty := ⟨fun _ => 1⟩

/-- A store holding kittyMale at (0, 0) and kittyFemale at (0, 1). -/
def demoStore : Nat → Nat → Option Kitty :=
  fun o i =>
    if o = 0 ∧ i = 0 then some kittyMale
    else if o = 0 ∧ i = 1 then some kittyFemale
    else none

/-- State after two creations: ids 0 and 1 used, counter at 2. -/
def demoState : State := { kitties := demoStore, nextKittyId := 2 }

/-- Empty store with an exhausted allocator. -/
def stateExhausted : State :=
  { kitties := fun _ _ => none, nextKittyId := u32MAX }

/-- The demo store with an exhausted allocator. -/
def stateFullStore : State := { kitties := demoStore, nextKittyId := u32MAX }

/-- The all-zeros selector. -/
def selZero : Fin 16 → Nat := fun _ => 0

/-- The all-ones (0xFF) selector. -/
def selOnes : Fin 16 → Nat := fun _ => 255

/-! Helper lemmas. -/

/-- Masking a byte with 255 is the identity. -/
lemma land_255_of_lt (a : Nat) (ha : a < 256) : 255 &&& a = a := by
  have h2 := Nat.and_pow_two_sub_one_eq_mod a 8
  rw [Nat.land_comm] at h2
  norm_num at h2
  rw [h2]
  exact Nat.mod_eq_of_lt ha

/-- Parity of a combined byte: bit 0 comes from parent 1 when the selector
    byte is even and from parent 2 when it is odd. -/
lemma combine_dna_mod_two (a b s : Nat) :
    combine_dna a b s % 2 = if s % 2 = 0 then a % 2 else b % 2 := by
  have hbit : ∀ n : Nat, n % 2 = if n.testBit 0 then 1 else 0 := by
    intro n
    rcases Nat.mod_two_eq_zero_or_one n with h | h <;>
      simp [Nat.testBit_zero, h]
  rw [hbit, hbit a, hbit b, hbit s]
  simp only [combine_dna, Nat.testBit_lor, Nat.testBit_land, Nat.testBit_xor]
  have h255 : Nat.testBit 255 0 = true := by decide
  rw [h255]
  cases ha : a.testBit 0 <;> cases hb : b.testBit 0 <;>
    cases hs : s.testBit 0 <;> simp

/-- Success and failure shape of the allocator, shared helper. -/
lemma get_next_kitty_id_eq (s : State) :
    (s.nextKittyId < u32MAX →
      get_next_kitty_id s =
        (Except.ok s.nextKittyId,
         { s with nextKittyId := s.nextKittyId + 1 })) ∧
    (u32MAX ≤ s.nextKittyId →
      get_next_kitty_id s = (Except.error Error.KittiesIdOverflow, s)) := by
  refine ⟨fun h => ?_, fun h => ?_⟩
  · unfold get_next_kitty_id
    rw [if_neg (by omega)]
  · unfold get_next_kitty_id
    rw [if_pos h]

/-- C2: for a counter value strictly below u32::MAX the allocator returns
    the current counter and stores counter + 1; at u32::MAX it fails with
    KittiesIdOverflow and the state, counter included, is unchanged. -/
theorem get_next_kitty_id_spec (s : State) :
    (s.nextKittyId < u32MAX →
      get_next_kitty_id s =
        (Except.ok s.nextKittyId,
         { s with nextKittyId := s.nextKittyId + 1 })) ∧
    (s.nextKittyId = u32MAX →
      get_next_kitty_id s = (Except.error Error.KittiesIdOverflow, s)) :=
  ⟨(get_next_kitty_id_eq s).1, fun h => (get_next_kitty_id_eq s).2 (by omega)⟩

/-- C2 witness: the allocator at counter 2 and at the exhausted counter. -/
theorem get_next_kitty_id_spec_witness :
    get_next_kitty_id demoState =
      (Except.ok 2, { demoState with nextKittyId := 3 }) ∧
    get_next_kitty_id stateExhausted =
      (Except.error Error.KittiesIdOverflow, stateExhausted) :=
  ⟨(get_next_kitty_id_spec demoState).1 (by decide),
   (get_next_kitty_id_spec stateExhausted).2 rfl⟩

/-- C8: gender is a pure function of genome byte 0 parity, Male for even
    and Female for odd, and a genome never differs in gender from itself. -/
theorem gender_spec (k : Kitty) :
    (k.gender = KittyGender.Male ↔ k.dna 0 % 2 = 0) ∧
    (k.gender = KittyGender.Female ↔ k.dna 0 % 2 = 1) ∧
    ¬(k.gender ≠ k.gender) := by
  unfold Kitty.gender
  by_cases h : k.dna 0 % 2 = 0
  · simp [h]
  · simp only [if_neg h]
    refine ⟨by simp [h], ?_, by simp⟩
    simp only [true_iff]
    omega

/-- C9: swapping the two parent bytes and complementing the selector byte
    yields the identical child byte. -/
theorem combine_dna_swap (a b s : Nat)
    (_ha : a < 256) (_hb : b < 256) (_hs : s < 256) :
    combine_dna a b s = combine_dna b a (255 ^^^ s) := by
  unfold combine_dna
  rw [Nat.xor_cancel_left, Nat.lor_comm]

/-- C9 witness: the swap identity at concrete bytes. -/
theorem combine_dna_swap_witness :
    combine_dna 172 53 15 = combine_dna 53 172 (255 ^^^ 15) :=
  combine_dna_swap 172 53 15 (by decide) (by decide) (by decide)

/-- C7: when an id is available, create performs no validation: it takes
    the entropy bytes verbatim as the genome, inserts the record at
    (caller, id), emits KittyCreated and succeeds. -/
theorem create_spec (sender : Nat) (dna : Fin 16 → Nat) (s : State)
    (h : s.nextKittyId < u32MAX) :
    create sender dna s =
      Except.ok
        ({ kitties := insertKitty s.kitties sender s.nextKittyId ⟨dna⟩,
           nextKittyId := s.nextKittyId + 1 },
         Event.KittyCreated sender s.nextKittyId ⟨dna⟩) := by
  unfold create
  rw [(get_next_kitty_id_eq s).1 h]

/-- C7 witness: creation on the demo state allocates id 2 and stores the
    entropy bytes verbatim. -/
theorem create_spec_witness :
    create 0 selOnes demoState =
      Except.ok
        ({ kitties := insertKitty demoState.kitties 0 2 ⟨selOnes⟩,
           nextKittyId := 3 },
         Event.KittyCreated 0 2 ⟨selOnes⟩) :=
  create_spec 0 selOnes demoState (by decide)

/-- Success shape of breed, shared helper: with both parents present under
    the sender, distinct genders and an available id, breed inserts the
    combined child at (sender, current counter) and emits KittyBred. -/
lemma breed_ok_eq (sender id1 id2 : Nat) (sel : Fin 16 → Nat) (s : State)
    (k1 k2 : Kitty)
    (h1 : s.kitties sender id1 = some k1)
    (h2 : s.kitties sender id2 = some k2)
    (hg : k1.gender ≠ k2.gender) (hid : s.nextKittyId < u32MAX) :
    breed sender id1 id2 sel s =
      Except.ok
        ({ kitties :=
             insertKitty s.kitties sender s.nextKittyId (bred_kitty k1 k2 sel),
           nextKittyId := s.nextKittyId + 1 },
         Event.KittyBred sender s.nextKittyId (bred_kitty k1 k2 sel)) := by
  unfold breed
  rw [h1, h2, (get_next_kitty_id_eq s).1 hid]
  simp [hg]

/-- C3: with both ids present under the caller and the two records of equal
    derived gender, breed fails with SameGender whatever the genomes are,
    and dispatch leaves the state (store and counter) unchanged; taking
    both ids equal, a self-breed on an existing record always fails so. -/
theorem breed_same_gender_spec (sender id1 id2 : Nat) (sel : Fin 16 → Nat)
    (s : State) (k1 k2 : Kitty)
    (h1 : s.kitties sender id1 = some k1)
    (h2 : s.kitties sender id2 = some k2)
    (hg : k1.gender = k2.gender) :
    breed sender id1 id2 sel s = Except.error Error.SameGender ∧
    dispatch_breed sender id1 id2 sel s = s := by
  have hb : breed sender id1 id2 sel s = Except.error Error.SameGender := by
    unfold breed
    rw [h1, h2]
    simp [hg]
  exact ⟨hb, by unfold dispatch_breed; rw [hb]⟩

/-- C3 witness: a self-breed of the record at id 0 fails with SameGender
    and leaves the demo state unchanged. -/
theorem breed_same_gender_spec_witness :
    breed 0 0 0 selZero demoState = Except.error Error.SameGender ∧
    dispatch_breed 0 0 0 selZero demoState = demoState :=
  breed_same_gender_spec 0 0 0 selZero demoState kittyMale kittyMale
    rfl rfl rfl

/-- C4: when either id is absent under the caller, breed fails with
    InvalidKittyId (the RecordNotFound of the spec), and dispatch leaves
    the state unchanged, so no allocator id is consumed. -/
theorem breed_not_found_spec (sender id1 id2 : Nat) (sel : Fin 16 → Nat)
    (s : State)
    (h : s.kitties sender id1 = none ∨ s.kitties sender id2 = none) :
    breed sender id1 id2 sel s = Except.error Error.InvalidKittyId ∧
    dispatch_breed sender id1 id2 sel s = s := by
  have hb : breed sender id1 id2 sel s = Except.error Error.InvalidKittyId := by
    unfold breed
    rcases h with h | h
    · rw [h]
    · rw [h]
      cases hk : s.kitties sender id1 <;> simp
  exact ⟨hb, by unfold dispatch_breed; rw [hb]⟩

/-- C4 witness: breeding ids 0 and 5, with 5 absent, fails with
    InvalidKittyId and leaves the demo state unchanged. -/
theorem breed_not_found_spec_witness :
    breed 0 0 5 selZero demoState = Except.error Error.InvalidKittyId ∧
    dispatch_breed 0 0 5 selZero demoState = demoState :=
  breed_not_found_spec 0 0 5 selZero demoState (Or.inr rfl)

/-- C1: a successful breed computes the child genome byte-wise as
    (!selector[i] & genomeA[i]) | (selector[i] & genomeB[i]); an all-zero
    selector reproduces parent A's genome exactly and an all-ones selector
    reproduces parent B's genome exactly. -/
theorem breed_combine_spec (sender id1 id2 : Nat) (sel : Fin 16 → Nat)
    (s : State) (k1 k2 : Kitty)
    (h1 : s.kitties sender id1 = some k1)
    (h2 : s.kitties sender id2 = some k2)
    (hg : k1.gender ≠ k2.gender) (hid : s.nextKittyId < u32MAX) :
    breed sender id1 id2 sel s =
      Except.ok
        ({ kitties :=
             insertKitty s.kitties sender s.nextKittyId (bred_kitty k1 k2 sel),
           nextKittyId := s.nextKittyId + 1 },
         Event.KittyBred sender s.nextKittyId (bred_kitty k1 k2 sel)) ∧
    (∀ i, (bred_kitty k1 k2 sel).dna i =
      ((255 ^^^ sel i) &&& k1.dna i) ||| (sel i &&& k2.dna i)) ∧
    ((∀ i, sel i = 0) → (∀ i, k1.dna i < 256) →
      (bred_kitty k1 k2 sel).dna = k1.dna) ∧
    ((∀ i, sel i = 255) → (∀ i, k2.dna i < 256) →
      (bred_kitty k1 k2 sel).dna = k2.dna) := by
  refine ⟨breed_ok_eq sender id1 id2 sel s k1 k2 h1 h2 hg hid,
    fun i => rfl, fun hz hb => ?_, fun ho hb => ?_⟩
  · funext i
    show combine_dna (k1.dna i) (k2.dna i) (sel i) = k1.dna i
    rw [hz i]
    unfold combine_dna
    rw [Nat.xor_zero, Nat.zero_and, Nat.or_zero]
    exact land_255_of_lt _ (hb i)
  · funext i
    show combine_dna (k1.dna i) (k2.dna i) (sel i) = k2.dna i
    rw [ho i]
    unfold combine_dna
    rw [Nat.xor_self, Nat.zero_and, Nat.zero_or]
    exact land_255_of_lt _ (hb i)

/-- C1 witness: breeding the demo parents with the all-zero selector
    allocates id 2 and yields a child genome equal to parent A's; the
    all-ones selector yields parent B's genome. -/
theorem breed_combine_spec_witness :
    breed 0 0 1 selZero demoState =
      Except.ok
        ({ kitties :=
             insertKitty demoState.kitties 0 2
               (bred_kitty kittyMale kittyFemale selZero),
           nextKittyId := 3 },
         Event.KittyBred 0 2 (bred_kitty kittyMale kittyFemale selZero)) ∧
    (bred_kitty kittyMale kittyFemale selZero).dna = kittyMale.dna ∧
    (bred_kitty kittyMale kittyFemale selOnes).dna = kittyFemale.dna := by
  refine ⟨(breed_combine_spec 0 0 1 selZero demoState kittyMale kittyFemale
      rfl rfl (by decide) (by decide)).1,
    (breed_combine_spec 0 0 1 selZero demoState kittyMale kittyFemale
      rfl rfl (by decide) (by decide)).2.2.1 (fun _ => rfl) (by decide),
    (breed_combine_spec 0 0 1 selOnes demoState kittyMale kittyFemale
      rfl rfl (by decide) (by decide)).2.2.2 (fun _ => rfl) (by decide)⟩

/-- C10: on a successful breed the child's gender equals parent A's when
    the selector's byte 0 is even and parent B's when it is odd; in either
    case it equals one of the two parents' genders. -/
theorem breed_child_gender_spec (sender id1 id2 : Nat) (sel : Fin 16 → Nat)
    (s : State) (k1 k2 : Kitty)
    (h1 : s.kitties sender id1 = some k1)
    (h2 : s.kitties sender id2 = some k2)
    (hg : k1.gender ≠ k2.gender) (hid : s.nextKittyId < u32MAX) :
    breed sender id1 id2 sel s =
      Except.ok
        ({ kitties :=
             insertKitty s.kitties sender s.nextKittyId (bred_kitty k1 k2 sel),
           nextKittyId := s.nextKittyId + 1 },
         Event.KittyBred sender s.nextKittyId (bred_kitty k1 k2 sel)) ∧
    (sel 0 % 2 = 0 → (bred_kitty k1 k2 sel).gender = k1.gender) ∧
    (sel 0 % 2 = 1 → (bred_kitty k1 k2 sel).gender = k2.gender) ∧
    ((bred_kitty k1 k2 sel).gender = k1.gender ∨
      (bred_kitty k1 k2 sel).gender = k2.gender) := by
  have hmod : (bred_kitty k1 k2 sel).dna 0 % 2 =
      if sel 0 % 2 = 0 then k1.dna 0 % 2 else k2.dna 0 % 2 :=
    combine_dna_mod_two (k1.dna 0) (k2.dna 0) (sel 0)
  have heven : sel 0 % 2 = 0 → (bred_kitty k1 k2 sel).gender = k1.gender := by
    intro hs
    unfold Kitty.gender
    rw [hmod, if_pos hs]
  have hodd : sel 0 % 2 = 1 → (bred_kitty k1 k2 sel).gender = k2.gender := by
    intro hs
    unfold Kitty.gender
    rw [hmod, if_neg (show ¬sel 0 % 2 = 0 by omega)]
  refine ⟨breed_ok_eq sender id1 id2 sel s k1 k2 h1 h2 hg hid,
    heven, hodd, ?_⟩
  rcases Nat.mod_two_eq_zero_or_one (sel 0) with hs | hs
  · exact Or.inl (heven hs)
  · exact Or.inr (hodd hs)

/-- C10 witness: with the all-zero selector (byte 0 even) the child of the
    demo parents has parent A's gender. -/
theorem breed_child_gender_spec_witness :
    (bred_kitty kittyMale kittyFemale selZero).gender = kittyMale.gender :=
  (breed_child_gender_spec 0 0 1 selZero demoState kittyMale kittyFemale
    rfl rfl (by decide) (by decide)).2.1 rfl

/-- C5 counterexample: with the allocator exhausted, a breed call whose
    lookups miss fails with InvalidKittyId, not with KittiesIdOverflow, so
    not every post-exhaustion breed call fails with the overflow error. -/
theorem breed_after_exhaustion_cex :
    stateExhausted.nextKittyId = u32MAX ∧
    breed 0 0 1 selZero stateExhausted = Except.error Error.InvalidKittyId ∧
    Error.InvalidKittyId ≠ Error.KittiesIdOverflow :=
  ⟨rfl, rfl, by decide⟩

/-- C5 amended: create succeeds whenever the counter is not exhausted; at
    an exhausted counter create fails with KittiesIdOverflow leaving the
    state unchanged, and a breed call that passes its lookup and gender
    checks fails with KittiesIdOverflow leaving the state unchanged
    (a breed call failing those checks fails with that check's error, the
    state again unchanged). -/
theorem exhaustion_spec (sender id1 id2 : Nat) (dna sel : Fin 16 → Nat)
    (s : State) (k1 k2 : Kitty) :
    (s.nextKittyId < u32MAX →
      create sender dna s =
        Except.ok
          ({ kitties := insertKitty s.kitties sender s.nextKittyId ⟨dna⟩,
             nextKittyId := s.nextKittyId + 1 },
           Event.KittyCreated sender s.nextKittyId ⟨dna⟩)) ∧
    (u32MAX ≤ s.nextKittyId →
      create sender dna s = Except.error Error.KittiesIdOverflow ∧
      dispatch_create sender dna s = s) ∧
    (u32MAX ≤ s.nextKittyId →
      s.kitties sender id1 = some k1 → s.kitties sender id2 = some k2 →
      k1.gender ≠ k2.gender →
      breed sender id1 id2 sel s = Except.error Error.KittiesIdOverflow ∧
      dispatch_breed sender id1 id2 sel s = s) := by
  refine ⟨fun h => ?_, fun h => ?_, fun h h1 h2 hg => ?_⟩
  · unfold create
    rw [(get_next_kitty_id_eq s).1 h]
  · have hc : create sender dna s = Except.error Error.KittiesIdOverflow := by
      unfold create
      rw [(get_next_kitty_id_eq s).2 h]
    exact ⟨hc, by unfold dispatch_create; rw [hc]⟩
  · have hb : breed sender id1 id2 sel s =
        Except.error Error.KittiesIdOverflow := by
      unfold breed
      rw [h1, h2, (get_next_kitty_id_eq s).2 h]
      simp [hg]
    exact ⟨hb, by unfold dispatch_breed; rw [hb]⟩

/-- C5 witness: on the exhausted demo state, create and an otherwise valid
    breed both fail with KittiesIdOverflow, the state unchanged. -/
theorem exhaustion_spec_witness :
    create 0 selZero stateFullStore = Except.error Error.KittiesIdOverflow ∧
    dispatch_create 0 selZero stateFullStore = stateFullStore ∧
    breed 0 0 1 selZero stateFullStore =
      Except.error Error.KittiesIdOverflow ∧
    dispatch_breed 0 0 1 selZero stateFullStore = stateFullStore :=
  ⟨((exhaustion_spec 0 0 1 selZero selZero stateFullStore kittyMale
      kittyFemale).2.1 (by decide)).1,
   ((exhaustion_spec 0 0 1 selZero selZero stateFullStore kittyMale
      kittyFemale).2.1 (by decide)).2,
   ((exhaustion_spec 0 0 1 selZero selZero stateFullStore kittyMale
      kittyFemale).2.2 (by decide) rfl rfl (by decide)).1,
   ((exhaustion_spec 0 0 1 selZero selZero stateFullStore kittyMale
      kittyFemale).2.2 (by decide) rfl rfl (by decide)).2⟩

/-- Allocation shape of a successful call, shared helper: the event id is
    the pre-call counter and the counter is incremented by one. -/
lemma applyOp_ok_id (s : State) (op : Op) (s' : State) (ev : Event)
    (h : applyOp s op = Except.ok (s', ev)) :
    eventId ev = s.nextKittyId ∧ s'.nextKittyId = s.nextKittyId + 1 := by
  cases op with
  | createOp sender dna =>
    have h' : create sender dna s = Except.ok (s', ev) := h
    unfold create at h'
    by_cases hle : u32MAX ≤ s.nextKittyId
    · rw [(get_next_kitty_id_eq s).2 hle] at h'
      simp at h'
    · rw [(get_next_kitty_id_eq s).1 (by omega)] at h'
      simp only [Except.ok.injEq, Prod.mk.injEq] at h'
      obtain ⟨hs, hev⟩ := h'
      subst hs
      subst hev
      exact ⟨rfl, rfl⟩
  | breedOp sender id1 id2 sel =>
    have h' : breed sender id1 id2 sel s = Except.ok (s', ev) := h
    unfold breed at h'
    cases hk1 : s.kitties sender id1 with
    | none =>
      rw [hk1] at h'
      exact absurd h' (by simp)
    | some k1 =>
      rw [hk1] at h'
      simp only [] at h'
      cases hk2 : s.kitties sender id2 with
      | none =>
        rw [hk2] at h'
        exact absurd h' (by simp)
      | some k2 =>
        rw [hk2] at h'
        simp only [] at h'
        by_cases hg : k1.gender = k2.gender
        · rw [if_pos hg] at h'
          exact absurd h' (by simp)
        · rw [if_neg hg] at h'
          by_cases hle : u32MAX ≤ s.nextKittyId
          · rw [(get_next_kitty_id_eq s).2 hle] at h'
            exact absurd h' (by simp)
          · rw [(get_next_kitty_id_eq s).1 (by omega)] at h'
            simp only [Except.ok.injEq, Prod.mk.injEq] at h'
            obtain ⟨hs, hev⟩ := h'
            subst hs
            subst hev
            exact ⟨rfl, rfl⟩

/-- Ids collected along a trace are strictly increasing and bounded below
    by the starting counter, shared helper. -/
lemma runTrace_ids_mono (ops : List Op) : ∀ s : State,
    List.Pairwise (· < ·) (runTrace s ops).2 ∧
    ∀ id ∈ (runTrace s ops).2, s.nextKittyId ≤ id := by
  induction ops with
  | nil =>
    intro s
    simp [runTrace]
  | cons op ops ih =>
    intro s
    unfold runTrace
    cases hop : applyOp s op with
    | error e =>
      simpa using ih s
    | ok out =>
      obtain ⟨s', ev⟩ := out
      obtain ⟨hid, hnext⟩ := applyOp_ok_id s op s' ev hop
      obtain ⟨hp, hlb⟩ := ih s'
      simp only []
      constructor
      · refine List.Pairwise.cons ?_ hp
        intro b hb
        have hb' := hlb b hb
        omega
      · intro j hj
        rcases List.mem_cons.mp hj with hj | hj
        · omega
        · have := hlb j hj
          omega

/-- C6: over any sequence of calls from the genesis state, the ids
    allocated by the successful operations, in order of allocation, are
    strictly increasing, and no id is ever allocated twice. -/
theorem trace_ids_strictly_increasing (ops : List Op) :
    List.Pairwise (· < ·) (runTrace initState ops).2 ∧
    List.Nodup (runTrace initState ops).2 :=
  ⟨(runTrace_ids_mono ops initState).1,
   List.Pairwise.imp (fun h => Nat.ne_of_lt h)
     (runTrace_ids_mono ops initState).1⟩
